import Mathlib

/-!
Shallow embedding of the `ruuvi-decoders` crate: a multi-format decoder for
fixed-layout binary sensor payloads (data formats 5, 6 and E1), together with
the hex front-end and the BLE-advertisement payload extractor.

Modelling conventions:
* a Rust `u8` byte is a `Nat`; the invariant `b < 256` is an explicit
  hypothesis where it matters;
* `f64` quantities obtained by linear scaling of integers are modelled
  exactly in `ℚ`; the one transcendental quantity (format 6 luminosity)
  is modelled in `ℝ`;
* fallible functions return `Except DecodeError _`; the one place where the
  Rust code can panic (indexing `data[0]` on an empty slice) is modelled by
  an outer `Option`, with `none` standing for the panic;
* a Rust string is modelled as its list of characters.
-/

/-- Big-endian 16-bit read, `u16::from_be_bytes([hi, lo])`. -/
def u16_from_be (hi lo : Nat) : Nat := 256 * hi + lo

/-- Big-endian signed 16-bit read, `i16::from_be_bytes([hi, lo])`
(two's complement at 16 bits). -/
def i16_from_be (hi lo : Nat) : Int :=
  if 256 * hi + lo < 32768 then ((256 * hi + lo : Nat) : Int)
  else ((256 * hi + lo : Nat) : Int) - 65536

/-- Error taxonomy of `error.rs` (`DecodeError`). -/
inductive DecodeError where
  | InvalidHex : String → DecodeError
  | InvalidLength : String → DecodeError
  | UnsupportedFormat : Nat → DecodeError
  | InvalidData : String → DecodeError
  | ValidationFailed : String → DecodeError
  | DecryptionFailed : String → DecodeError
  | MissingField : String → DecodeError
  deriving DecidableEq, Repr

/-- Constructor helper `DecodeError::invalid_length(expected, actual)`:
an `InvalidLength` whose message carries the expected and actual counts. -/
def DecodeError.invalid_length (expected actual : Nat) : DecodeError :=
  DecodeError.InvalidLength
    ("Expected " ++ toString expected ++ " bytes, got " ++ toString actual)

/-- Lowercase hex digit for a nibble (`0`-`9`, `a`-`f`). -/
def hexDigit (n : Nat) : Char :=
  if n < 10 then Char.ofNat (48 + n) else Char.ofNat (87 + n)

/-- Rendering of one byte as two lowercase hex characters (`format!("{b:02x}")`). -/
def byteToHex (b : Nat) : String := String.mk [hexDigit (b / 16), hexDigit (b % 16)]

/-- Rust slice `&bytes[a..b]`. -/
def byteSlice (bytes : List Nat) (a b : Nat) : List Nat := (bytes.drop a).take (b - a)

instance {ε α : Type} [DecidableEq ε] [DecidableEq α] : DecidableEq (Except ε α) := fun
  | .error a, .error b => decidable_of_iff (a = b) (by simp)
  | .error _, .ok _ => isFalse (by simp)
  | .ok _, .error _ => isFalse (by simp)
  | .ok a, .ok b => decidable_of_iff (a = b) (by simp)

namespace v5

/-- `v5::PAYLOAD_LENGTH`. -/
def PAYLOAD_LENGTH : Nat := 18

/-- `v5::PAYLOAD_WITH_MAC_LENGTH`. -/
def PAYLOAD_WITH_MAC_LENGTH : Nat := PAYLOAD_LENGTH + 6

/-- Decoded record for Data Format 5 (`RAWv2`). -/
structure DataFormatV5 where
  mac_address : String
  temperature : Option ℚ
  humidity : Option ℚ
  pressure : Option ℚ
  acceleration_x : Option Int
  acceleration_y : Option Int
  acceleration_z : Option Int
  battery_voltage : Option Nat
  tx_power : Option Int
  movement_counter : Option Nat
  measurement_sequence : Option Nat
  deriving DecidableEq, Repr

/-- `v5::decode_temperature`: signed 16-bit, 0.005 °C/bit, sentinel `0x8000`.
The source returns `Ok(None)`/`Ok(Some(_))` from the two branches; the `Ok`
is factored out of the conditional here. -/
def decode_temperature (bytes : List Nat) : Except DecodeError (Option ℚ) :=
  if bytes.length ≠ 2 then
    .error (.InvalidLength "Temperature field must be 2 bytes")
  else
    let raw_value := i16_from_be (bytes.getD 0 0) (bytes.getD 1 0)
    .ok (if raw_value = -32768 then none else some ((raw_value : ℚ) * (5 / 1000)))

/-- `v5::decode_humidity`: unsigned 16-bit, 0.0025 %/bit, sentinel 65535. -/
def decode_humidity (bytes : List Nat) : Except DecodeError (Option ℚ) :=
  if bytes.length ≠ 2 then
    .error (.InvalidLength "Humidity field must be 2 bytes")
  else
    let raw_value := u16_from_be (bytes.getD 0 0) (bytes.getD 1 0)
    .ok (if raw_value = 65535 then none else some ((raw_value : ℚ) * (25 / 10000)))

/-- `v5::decode_pressure`: unsigned 16-bit plus 50000 Pa, sentinel 65535. -/
def decode_pressure (bytes : List Nat) : Except DecodeError (Option ℚ) :=
  if bytes.length ≠ 2 then
    .error (.InvalidLength "Pressure field must be 2 bytes")
  else
    let raw_value := u16_from_be (bytes.getD 0 0) (bytes.getD 1 0)
    .ok (if raw_value = 65535 then none else some ((raw_value : ℚ) + 50000))

/-- `v5::decode_acceleration`: signed 16-bit, 1 unit/bit, sentinel `0x8000`. -/
def decode_acceleration (bytes : List Nat) : Except DecodeError (Option Int) :=
  if bytes.length ≠ 2 then
    .error (.InvalidLength "Acceleration field must be 2 bytes")
  else
    let raw_value := i16_from_be (bytes.getD 0 0) (bytes.getD 1 0)
    .ok (if raw_value = -32768 then none else some raw_value)

/-- `v5::decode_power_info`: one 16-bit word; battery is the upper 11 bits
(`(raw >> 5) & 0x07FF`, sentinel 2047, offset +1600 mV), TX power the lower 5
bits (`raw & 0x001F`, sentinel 31, `-40 + value * 2` dBm).  The source applies
`u8::cast_signed` (8-bit two's complement) to the 5-bit value before scaling;
since that value is at most 31 < 128 the cast is the identity and `Int`
arithmetic models it exactly. -/
def decode_power_info (bytes : List Nat) :
    Except DecodeError (Option Nat × Option Int) :=
  if bytes.length ≠ 2 then
    .error (.InvalidLength "Power info field must be 2 bytes")
  else
    let raw_value := u16_from_be (bytes.getD 0 0) (bytes.getD 1 0)
    let battery_raw := (raw_value >>> 5) &&& 0x07FF
    let battery_voltage : Option Nat :=
      if battery_raw = 2047 then none else some (battery_raw + 1600)
    let tx_power_raw := raw_value &&& 0x001F
    let tx_power : Option Int :=
      if tx_power_raw = 31 then none else some (-40 + (tx_power_raw : Int) * 2)
    .ok (battery_voltage, tx_power)

/-- `v5::decode_movement_counter`: one byte, sentinel 255. -/
def decode_movement_counter (byte : Nat) : Option Nat :=
  if byte = 255 then none else some byte

/-- `v5::decode_measurement_sequence`: unsigned 16-bit, sentinel 65535. -/
def decode_measurement_sequence (bytes : List Nat) :
    Except DecodeError (Option Nat) :=
  if bytes.length ≠ 2 then
    .error (.InvalidLength "Measurement sequence field must be 2 bytes")
  else
    let raw_value := u16_from_be (bytes.getD 0 0) (bytes.getD 1 0)
    .ok (if raw_value = 65535 then none else some raw_value)

/-- `v5::decode_mac_address`: 6 bytes rendered as lowercase hex;
`"invalid"` for a wrong-length slice or the all-`0xFF` pattern. -/
def decode_mac_address (bytes : List Nat) : String :=
  if bytes.length ≠ 6 then "invalid"
  else if bytes.all (· = 255) then "invalid"
  else String.join (bytes.map byteToHex)

/-- `v5::decode`: length check, format-identifier check, then field extraction
on fixed slices. -/
def decode (bytes : List Nat) : Except DecodeError DataFormatV5 :=
  if bytes.length ≠ PAYLOAD_WITH_MAC_LENGTH then
    .error (DecodeError.invalid_length PAYLOAD_WITH_MAC_LENGTH bytes.length)
  else if bytes.getD 0 0 ≠ 5 then
    .error (.UnsupportedFormat (bytes.getD 0 0))
  else do
    let temperature ← decode_temperature (byteSlice bytes 1 3)
    let humidity ← decode_humidity (byteSlice bytes 3 5)
    let pressure ← decode_pressure (byteSlice bytes 5 7)
    let acceleration_x ← decode_acceleration (byteSlice bytes 7 9)
    let acceleration_y ← decode_acceleration (byteSlice bytes 9 11)
    let acceleration_z ← decode_acceleration (byteSlice bytes 11 13)
    let power ← decode_power_info (byteSlice bytes 13 15)
    let movement_counter := decode_movement_counter (bytes.getD 15 0)
    let measurement_sequence ← decode_measurement_sequence (byteSlice bytes 16 18)
    let mac_address := decode_mac_address (byteSlice bytes 18 24)
    .ok { mac_address, temperature, humidity, pressure,
          acceleration_x, acceleration_y, acceleration_z,
          battery_voltage := power.1, tx_power := power.2,
          movement_counter, measurement_sequence }

end v5

/-- Reading of the claimed TX-power formula with the 5-bit field interpreted
in two's complement before scaling, exactly as the spec sentence words it. -/
def txPowerTwosComplement (five : Nat) : Option Int :=
  if five = 31 then none
  else some (-40 + 2 * (if five < 16 then (five : Int) else (five : Int) - 32))

lemma u16_from_be_lt (a b : Nat) (ha : a < 256) (hb : b < 256) :
    u16_from_be a b < 65536 := by
  unfold u16_from_be; omega

lemma shiftRight_and_eq_div (w : Nat) (hw : w < 65536) :
    (w >>> 5) &&& 0x07FF = w / 32 := by
  have h1 : (w >>> 5) = w / 2 ^ 5 := Nat.shiftRight_eq_div_pow w 5
  have h2 : w / 2 ^ 5 &&& 0x07FF = w / 2 ^ 5 % 2 ^ 11 := by
    have := Nat.and_pow_two_sub_one_eq_mod (w / 2 ^ 5) 11
    norm_num at this ⊢
    exact this
  rw [h1, h2, Nat.mod_eq_of_lt (by omega)]
  norm_num

lemma and_31_eq_mod (w : Nat) : w &&& 0x001F = w % 32 := by
  have := Nat.and_pow_two_sub_one_eq_mod w 5
  norm_num at this ⊢
  exact this

example :
    (v5.decode [5, 0x12, 0xFC, 0x53, 0x94, 0xC3, 0x7C, 0, 4, 0xFF, 0xFC, 4,
      0x0C, 0xAC, 0x36, 0x42, 0, 0xCD, 0xCB, 0xB8, 0x33, 0x4C, 0x88, 0x4F]).map
      v5.DataFormatV5.tx_power = .ok (some 4) := by decide

example :
    (v5.decode [5, 0x12, 0xFC, 0x53, 0x94, 0xC3, 0x7C, 0, 4, 0xFF, 0xFC, 4,
      0x0C, 0xAC, 0x36, 0x42, 0, 0xCD, 0xCB, 0xB8, 0x33, 0x4C, 0x88, 0x4F]).map
      v5.DataFormatV5.mac_address = .ok "cbb8334c884f" := by decide

example :
    (v5.decode [5, 0x12, 0xFC, 0x53, 0x94, 0xC3, 0x7C, 0, 4, 0xFF, 0xFC, 4,
      0x0C, 0xAC, 0x36, 0x42, 0, 0xCD, 0xCB, 0xB8, 0x33, 0x4C, 0x88, 0x4F]).map
      v5.DataFormatV5.temperature = .ok (some (243 / 10)) := by
  norm_num [v5.decode, v5.decode_temperature, v5.decode_humidity, v5.decode_pressure,
    v5.decode_acceleration, v5.decode_power_info, v5.decode_measurement_sequence,
    byteSlice, i16_from_be, u16_from_be, Except.map, v5.PAYLOAD_WITH_MAC_LENGTH,
    v5.PAYLOAD_LENGTH, Bind.bind, Except.bind]

/-- C2 (counterexample): the valid 24-byte format-5 payload below has power
word `0x001E` (lower 5 bits = 30).  The code decodes TX power to `+20` dBm
(`-40 + 2 × 30`), whereas the claimed two's-complement interpretation of the
5-bit field (30 ≡ -2) would give `-44` dBm. -/
theorem c2_tx_power_counterexample :
    (v5.decode [5, 0, 0, 0, 0, 0, 0, 0, 0, 0, 0, 0, 0, 0, 30, 0, 0, 0,
      1, 2, 3, 4, 5, 6]).map v5.DataFormatV5.tx_power = .ok (some 20) ∧
    txPowerTwosComplement 30 = some (-44) ∧ (20 : Int) ≠ -44 :=
  ⟨by decide, by decide, by decide⟩

/-- C2 (amended): on every valid 24-byte format-5 payload the battery voltage
is the unsigned upper 11 bits of the big-endian word at bytes 13-14 plus
1600 mV, with raw 2047 giving `none`; the TX power is `-40 + 2 ×` the
unsigned value of the lower 5 bits, with raw 31 giving `none`.  (The 5-bit
field is read unsigned; the code's signed cast happens at 8 bits, where it is
the identity on values 0-30.) -/
theorem c2_power_info (b0 b1 b2 b3 b4 b5 b6 b7 b8 b9 b10 b11 b12 b13 b14 b15
    b16 b17 b18 b19 b20 b21 b22 b23 : Nat)
    (h0 : b0 = 5) (h13 : b13 < 256) (h14 : b14 < 256) :
    ∃ r, v5.decode [b0, b1, b2, b3, b4, b5, b6, b7, b8, b9, b10, b11, b12,
        b13, b14, b15, b16, b17, b18, b19, b20, b21, b22, b23] = .ok r ∧
      r.battery_voltage = (if u16_from_be b13 b14 / 32 = 2047 then none
        else some (u16_from_be b13 b14 / 32 + 1600)) ∧
      r.tx_power = (if u16_from_be b13 b14 % 32 = 31 then none
        else some (-40 + 2 * ((u16_from_be b13 b14 % 32 : Nat) : Int))) := by
  subst h0
  have hw : u16_from_be b13 b14 < 65536 := u16_from_be_lt b13 b14 h13 h14
  have hb : (u16_from_be b13 b14 >>> 5) &&& 0x07FF = u16_from_be b13 b14 / 32 :=
    shiftRight_and_eq_div _ hw
  have hx : u16_from_be b13 b14 &&& 0x001F = u16_from_be b13 b14 % 32 :=
    and_31_eq_mod _
  refine ⟨_, rfl, ?_, ?_⟩
  · rw [← hb]; exact rfl
  · rw [← hx]
    have h2 : ∀ z : Int, -40 + 2 * z = -40 + z * 2 := fun z => by ring
    rw [h2]; with_unfolding_all rfl

/-- Witness for `c2_power_info`: the amended claim instantiated at a concrete
valid payload with power word `0x001E`, all hypotheses discharged. -/
theorem c2_power_info_witness :
    (5 : Nat) = 5 ∧ (0 : Nat) < 256 ∧ (30 : Nat) < 256 ∧
    (∃ r, v5.decode [5, 0, 0, 0, 0, 0, 0, 0, 0, 0, 0, 0, 0, 0, 30, 0, 0, 0,
        1, 2, 3, 4, 5, 6] = .ok r ∧
      r.battery_voltage = (if u16_from_be 0 30 / 32 = 2047 then none
        else some (u16_from_be 0 30 / 32 + 1600)) ∧
      r.tx_power = (if u16_from_be 0 30 % 32 = 31 then none
        else some (-40 + 2 * ((u16_from_be 0 30 % 32 : Nat) : Int)))) :=
  ⟨rfl, by decide, by decide,
    c2_power_info 5 0 0 0 0 0 0 0 0 0 0 0 0 0 30 0 0 0 1 2 3 4 5 6 rfl
      (by decide) (by decide)⟩

namespace v6

/-- `v6::PAYLOAD_LENGTH`. -/
def PAYLOAD_LENGTH : Nat := 17

/-- `v6::PAYLOAD_WITH_MAC_LENGTH`. -/
def PAYLOAD_WITH_MAC_LENGTH : Nat := PAYLOAD_LENGTH + 3

/-- Decoded record for Data Format 6 (`RAWv3`).  The logarithmic luminosity
is the one transcendental quantity of the crate and is modelled in `ℝ`. -/
structure DataFormatV6 where
  temperature : Option ℚ
  humidity : Option ℚ
  pressure : Option ℚ
  pm2_5 : Option ℚ
  co2 : Option Nat
  voc_index : Option Nat
  nox_index : Option Nat
  luminosity : Option ℝ
  reserved : Option Nat
  measurement_sequence : Option Nat
  flags : Nat
  mac_address : String

/-- `v6::decode`: length check, format-identifier check, then field
extraction at fixed offsets.  The `u16` left shift in the index assembly
cannot overflow (the shifted value comes from a `u8`), so no reduction
modulo 2^16 is needed.  The `println!` in the source is a side effect with
no bearing on the returned value and has no counterpart here.  Marked
noncomputable only because `Real.exp`/`Real.log` model the `f64`
transcendental functions. -/
noncomputable def decode (bytes : List Nat) : Except DecodeError DataFormatV6 :=
  if bytes.length ≠ PAYLOAD_WITH_MAC_LENGTH then
    .error (DecodeError.invalid_length PAYLOAD_WITH_MAC_LENGTH bytes.length)
  else if bytes.getD 0 0 ≠ 6 then
    .error (.UnsupportedFormat (bytes.getD 0 0))
  else
    let raw_temp := i16_from_be (bytes.getD 1 0) (bytes.getD 2 0)
    let temperature : Option ℚ :=
      if raw_temp = -32768 then none else some ((raw_temp : ℚ) * (5 / 1000))
    let raw_humidity := u16_from_be (bytes.getD 3 0) (bytes.getD 4 0)
    let humidity : Option ℚ :=
      if raw_humidity > 40000 then none else some ((raw_humidity : ℚ) * (25 / 10000))
    let raw_pressure := u16_from_be (bytes.getD 5 0) (bytes.getD 6 0)
    let pressure : Option ℚ :=
      if raw_pressure = 65535 then none
      else some ((((raw_pressure : Int) + 50000 : Int) : ℚ) / 100)
    let raw_pm2_5 := u16_from_be (bytes.getD 7 0) (bytes.getD 8 0)
    let pm2_5 : Option ℚ :=
      if raw_pm2_5 > 10000 then none else some ((raw_pm2_5 : ℚ) * (1 / 10))
    let raw_co2 := u16_from_be (bytes.getD 9 0) (bytes.getD 10 0)
    let co2 : Option Nat := if raw_co2 > 40000 then none else some raw_co2
    let raw_voc_hi := bytes.getD 11 0
    let voc_flag := (bytes.getD 16 0 &&& 0b01000000) >>> 6
    let voc_value := (raw_voc_hi <<< 1) ||| voc_flag
    let voc_index : Option Nat := if voc_value > 500 then none else some voc_value
    let raw_nox_hi := bytes.getD 12 0
    let nox_flag := (bytes.getD 16 0 &&& 0b10000000) >>> 7
    let nox_value := (raw_nox_hi <<< 1) ||| nox_flag
    let nox_index : Option Nat := if nox_value > 500 then none else some nox_value
    let raw_lum := bytes.getD 13 0
    let luminosity : Option ℝ :=
      if raw_lum = 255 then none
      else some (min
        (Real.exp (((round ((raw_lum : Nat) : ℝ) : Int) : ℝ) *
          (Real.log (65535 + 1) / 254)) - 1) 65535)
    let reserved : Option Nat := some (bytes.getD 14 0)
    let measurement_sequence : Option Nat := some (bytes.getD 15 0)
    let flags := bytes.getD 16 0
    let mac_bytes := byteSlice bytes PAYLOAD_LENGTH PAYLOAD_WITH_MAC_LENGTH
    let mac_address := String.join (mac_bytes.map byteToHex)
    .ok { temperature, humidity, pressure, pm2_5, co2, voc_index, nox_index,
          luminosity, reserved, measurement_sequence, flags, mac_address }

end v6

namespace e1

/-- `e1::PAYLOAD_LENGTH`. -/
def PAYLOAD_LENGTH : Nat := 34

/-- `e1::PAYLOAD_WITH_MAC_LENGTH`. -/
def PAYLOAD_WITH_MAC_LENGTH : Nat := PAYLOAD_LENGTH + 6

/-- Decoded record for Data Format E1 (Extended v1). -/
structure DataFormatE1 where
  temperature : Option ℚ
  humidity : Option ℚ
  pressure : Option ℚ
  pm1_0 : Option ℚ
  pm2_5 : Option ℚ
  pm4_0 : Option ℚ
  pm10_0 : Option ℚ
  co2 : Option Nat
  voc_index : Option Nat
  nox_index : Option Nat
  luminosity : Option ℚ
  measurement_sequence : Option Nat
  flags : Nat
  mac_address : String
  deriving DecidableEq, Repr

/-- Big-endian 24-bit read of `e1::decode`'s `get_u32` closure:
`(u32(b0) << 16) | (u32(b1) << 8) | u32(b2)`. -/
def get_u32 (bytes : List Nat) (start : Nat) : Nat :=
  ((bytes.getD start 0) <<< 16) ||| ((bytes.getD (start + 1) 0) <<< 8) |||
    bytes.getD (start + 2) 0

/-- `e1::decode`: length check, format-identifier check, then field
extraction at fixed offsets. -/
def decode (bytes : List Nat) : Except DecodeError DataFormatE1 :=
  if bytes.length ≠ PAYLOAD_WITH_MAC_LENGTH then
    .error (DecodeError.invalid_length PAYLOAD_WITH_MAC_LENGTH bytes.length)
  else if bytes.getD 0 0 ≠ 0xE1 then
    .error (.UnsupportedFormat (bytes.getD 0 0))
  else
    let raw_temp := i16_from_be (bytes.getD 1 0) (bytes.getD 2 0)
    let temperature : Option ℚ :=
      if raw_temp = -32768 then none else some ((raw_temp : ℚ) * (5 / 1000))
    let raw_humidity := u16_from_be (bytes.getD 3 0) (bytes.getD 4 0)
    let humidity : Option ℚ :=
      if raw_humidity = 65535 then none else some ((raw_humidity : ℚ) * (25 / 10000))
    let raw_pressure := u16_from_be (bytes.getD 5 0) (bytes.getD 6 0)
    let pressure : Option ℚ :=
      if raw_pressure = 65535 then none
      else some ((((raw_pressure : Int) + 50000 : Int) : ℚ) / 100)
    let raw_pm1_0 := u16_from_be (bytes.getD 7 0) (bytes.getD 8 0)
    let pm1_0 : Option ℚ :=
      if raw_pm1_0 = 0xFFFF then none else some ((raw_pm1_0 : ℚ) * (1 / 10))
    let raw_pm2_5 := u16_from_be (bytes.getD 9 0) (bytes.getD 10 0)
    let pm2_5 : Option ℚ :=
      if raw_pm2_5 = 0xFFFF then none else some ((raw_pm2_5 : ℚ) * (1 / 10))
    let raw_pm4_0 := u16_from_be (bytes.getD 11 0) (bytes.getD 12 0)
    let pm4_0 : Option ℚ :=
      if raw_pm4_0 = 0xFFFF then none else some ((raw_pm4_0 : ℚ) * (1 / 10))
    let raw_pm10_0 := u16_from_be (bytes.getD 13 0) (bytes.getD 14 0)
    let pm10_0 : Option ℚ :=
      if raw_pm10_0 = 0xFFFF then none else some ((raw_pm10_0 : ℚ) * (1 / 10))
    let raw_co2 := u16_from_be (bytes.getD 15 0) (bytes.getD 16 0)
    let co2 : Option Nat := if raw_co2 = 0xFFFF then none else some raw_co2
    let raw_voc_hi := bytes.getD 17 0
    let voc_flag := (bytes.getD 28 0 &&& 0b01000000) >>> 6
    let voc_value := (raw_voc_hi <<< 1) ||| voc_flag
    let voc_index : Option Nat := if voc_value > 500 then none else some voc_value
    let raw_nox_hi := bytes.getD 18 0
    let nox_flag := (bytes.getD 28 0 &&& 0b10000000) >>> 7
    let nox_value := (raw_nox_hi <<< 1) ||| nox_flag
    let nox_index : Option Nat := if nox_value > 500 then none else some nox_value
    let raw_lum := get_u32 bytes 19
    let luminosity : Option ℚ :=
      if raw_lum = 0x00FFFFFF then none else some ((raw_lum : ℚ) * (1 / 100))
    let raw_seq := get_u32 bytes 25
    let measurement_sequence : Option Nat :=
      if raw_seq = 0x00FFFFFF then none else some raw_seq
    let flags := bytes.getD 28 0
    let mac_bytes := byteSlice bytes PAYLOAD_LENGTH PAYLOAD_WITH_MAC_LENGTH
    let mac_address := String.join (mac_bytes.map byteToHex)
    .ok { temperature, humidity, pressure, pm1_0, pm2_5, pm4_0, pm10_0, co2,
          voc_index, nox_index, luminosity, measurement_sequence, flags,
          mac_address }

end e1

lemma and_64_shift (b : Nat) : (b &&& 64) >>> 6 = b / 64 % 2 := by
  have h1 := Nat.and_two_pow b 6
  norm_num at h1
  rw [h1, Nat.shiftRight_eq_div_pow]
  norm_num
  rw [Nat.testBit_to_div_mod]
  rcases Nat.mod_two_eq_zero_or_one (b / 64) with h | h <;> norm_num [h]

lemma and_128_shift (b : Nat) : (b &&& 128) >>> 7 = b / 128 % 2 := by
  have h1 := Nat.and_two_pow b 7
  norm_num at h1
  rw [h1, Nat.shiftRight_eq_div_pow]
  norm_num
  rw [Nat.testBit_to_div_mod]
  rcases Nat.mod_two_eq_zero_or_one (b / 128) with h | h <;> norm_num [h]

lemma shiftLeft_one_lor_bit (h f : Nat) (hf : f < 2) : (h <<< 1) ||| f = 2 * h + f := by
  have hs : h <<< 1 = 2 * h := by rw [Nat.shiftLeft_eq]; ring
  interval_cases f
  · simp [hs]
  · rw [hs]
    have hb := Nat.lor_bit false h true 0
    simp [Nat.bit] at hb
    simpa [Nat.mul_comm] using hb

lemma assemble_bit6 (hi flags : Nat) :
    (hi <<< 1) ||| ((flags &&& 64) >>> 6) = 2 * hi + flags / 64 % 2 := by
  rw [and_64_shift, shiftLeft_one_lor_bit _ _ (Nat.mod_lt _ (by norm_num))]

lemma assemble_bit7 (hi flags : Nat) :
    (hi <<< 1) ||| ((flags &&& 128) >>> 7) = 2 * hi + flags / 128 % 2 := by
  rw [and_128_shift, shiftLeft_one_lor_bit _ _ (Nat.mod_lt _ (by norm_num))]

/-- C7: for every valid format-6 payload and every valid format-E1 payload,
each of the VOC and NOx indices is the 9-bit value whose high 8 bits are the
corresponding data byte (byte 11/12 for format 6, byte 17/18 for E1) and
whose least-significant bit is bit 6 (VOC) or bit 7 (NOx) of the trailing
flags byte (byte 16 for format 6, byte 28 for E1); an assembled value above
500 decodes to `none` and any value at most 500 is returned as present. -/
theorem c7_voc_nox_assembly :
    (∀ a0 a1 a2 a3 a4 a5 a6 a7 a8 a9 a10 a11 a12 a13 a14 a15 a16 a17 a18
        a19 : Nat, a0 = 6 →
      ∃ r, v6.decode [a0, a1, a2, a3, a4, a5, a6, a7, a8, a9, a10, a11, a12,
          a13, a14, a15, a16, a17, a18, a19] = .ok r ∧
        r.voc_index = (if 2 * a11 + a16 / 64 % 2 > 500 then none
          else some (2 * a11 + a16 / 64 % 2)) ∧
        r.nox_index = (if 2 * a12 + a16 / 128 % 2 > 500 then none
          else some (2 * a12 + a16 / 128 % 2))) ∧
    (∀ c0 c1 c2 c3 c4 c5 c6 c7 c8 c9 c10 c11 c12 c13 c14 c15 c16 c17 c18 c19
        c20 c21 c22 c23 c24 c25 c26 c27 c28 c29 c30 c31 c32 c33 c34 c35 c36
        c37 c38 c39 : Nat, c0 = 0xE1 →
      ∃ r, e1.decode [c0, c1, c2, c3, c4, c5, c6, c7, c8, c9, c10, c11, c12,
          c13, c14, c15, c16, c17, c18, c19, c20, c21, c22, c23, c24, c25,
          c26, c27, c28, c29, c30, c31, c32, c33, c34, c35, c36, c37, c38,
          c39] = .ok r ∧
        r.voc_index = (if 2 * c17 + c28 / 64 % 2 > 500 then none
          else some (2 * c17 + c28 / 64 % 2)) ∧
        r.nox_index = (if 2 * c18 + c28 / 128 % 2 > 500 then none
          else some (2 * c18 + c28 / 128 % 2))) := by
  constructor
  · intro a0 a1 a2 a3 a4 a5 a6 a7 a8 a9 a10 a11 a12 a13 a14 a15 a16 a17 a18
      a19 h0
    subst h0
    refine ⟨_, rfl, ?_, ?_⟩
    · rw [← assemble_bit6 a11 a16]; exact rfl
    · rw [← assemble_bit7 a12 a16]; exact rfl
  · intro c0 c1 c2 c3 c4 c5 c6 c7 c8 c9 c10 c11 c12 c13 c14 c15 c16 c17 c18
      c19 c20 c21 c22 c23 c24 c25 c26 c27 c28 c29 c30 c31 c32 c33 c34 c35
      c36 c37 c38 c39 h0
    subst h0
    refine ⟨_, rfl, ?_, ?_⟩
    · rw [← assemble_bit6 c17 c28]; exact rfl
    · rw [← assemble_bit7 c18 c28]; exact rfl

/-- Witness for `c7_voc_nox_assembly`: both halves instantiated at concrete
all-zero payloads with the correct format identifiers. -/
theorem c7_voc_nox_assembly_witness :
    (6 : Nat) = 6 ∧ (0xE1 : Nat) = 0xE1 ∧
    (∃ r, v6.decode [6, 0, 0, 0, 0, 0, 0, 0, 0, 0, 0, 0, 0, 0, 0, 0, 0, 0,
        0, 0] = .ok r ∧
      r.voc_index = (if 2 * 0 + 0 / 64 % 2 > 500 then none
        else some (2 * 0 + 0 / 64 % 2)) ∧
      r.nox_index = (if 2 * 0 + 0 / 128 % 2 > 500 then none
        else some (2 * 0 + 0 / 128 % 2))) ∧
    (∃ r, e1.decode [0xE1, 0, 0, 0, 0, 0, 0, 0, 0, 0, 0, 0, 0, 0, 0, 0, 0, 0,
        0, 0, 0, 0, 0, 0, 0, 0, 0, 0, 0, 0, 0, 0, 0, 0, 0, 0, 0, 0, 0, 0] =
        .ok r ∧
      r.voc_index = (if 2 * 0 + 0 / 64 % 2 > 500 then none
        else some (2 * 0 + 0 / 64 % 2)) ∧
      r.nox_index = (if 2 * 0 + 0 / 128 % 2 > 500 then none
        else some (2 * 0 + 0 / 128 % 2))) :=
  ⟨rfl, rfl,
    c7_voc_nox_assembly.1 6 0 0 0 0 0 0 0 0 0 0 0 0 0 0 0 0 0 0 0 rfl,
    c7_voc_nox_assembly.2 0xE1 0 0 0 0 0 0 0 0 0 0 0 0 0 0 0 0 0 0 0 0 0 0 0
      0 0 0 0 0 0 0 0 0 0 0 0 0 0 0 0 rfl⟩

/-- Luminosity formula exactly as the spec sentence states it:
`exp(code × ln(65536)/254) − 1`, clamped above at 65535. -/
noncomputable def specLuminosity (code : Nat) : ℝ :=
  min (Real.exp ((code : ℝ) * (Real.log 65536 / 254)) - 1) 65535

/-- C6: on every valid 20-byte format-6 payload the luminosity byte (byte 13)
decodes to `none` when it equals 255 and otherwise to
`exp(code × ln(65536)/254) − 1` clamped above at 65535, with exactly that log
base and step constant. -/
theorem c6_luminosity (a0 a1 a2 a3 a4 a5 a6 a7 a8 a9 a10 a11 a12 a13 a14 a15
    a16 a17 a18 a19 : Nat) (h0 : a0 = 6) :
    ∃ r, v6.decode [a0, a1, a2, a3, a4, a5, a6, a7, a8, a9, a10, a11, a12,
        a13, a14, a15, a16, a17, a18, a19] = .ok r ∧
      r.luminosity = (if a13 = 255 then none else some (specLuminosity a13)) := by
  subst h0
  have h1 : ((round ((a13 : Nat) : ℝ) : Int) : ℝ) * (Real.log (65535 + 1) / 254)
      = (a13 : ℝ) * (Real.log 65536 / 254) := by
    rw [round_natCast]
    push_cast
    norm_num
  refine ⟨_, rfl, ?_⟩
  unfold specLuminosity
  rw [← h1]
  exact rfl

/-- Witness for `c6_luminosity`: instantiated at a concrete payload whose
luminosity byte is 0xD9. -/
theorem c6_luminosity_witness :
    (6 : Nat) = 6 ∧
    (∃ r, v6.decode [6, 0, 0, 0, 0, 0, 0, 0, 0, 0, 0, 0, 0, 0xD9, 0, 0, 0,
        0, 0, 0] = .ok r ∧
      r.luminosity = (if (0xD9 : Nat) = 255 then none
        else some (specLuminosity 0xD9))) :=
  ⟨rfl, c6_luminosity 6 0 0 0 0 0 0 0 0 0 0 0 0 0xD9 0 0 0 0 0 0 rfl⟩

/-- C10: the E1 decoder never reads bytes 22-24 and 29-33; two valid 40-byte
payloads that differ only there decode to equal records.  Stated by replacing
those eight bytes with arbitrary values. -/
theorem c10_e1_unread_bytes (b0 b1 b2 b3 b4 b5 b6 b7 b8 b9 b10 b11 b12 b13
    b14 b15 b16 b17 b18 b19 b20 b21 b22 b23 b24 b25 b26 b27 b28 b29 b30 b31
    b32 b33 b34 b35 b36 b37 b38 b39 x22 x23 x24 x29 x30 x31 x32 x33 : Nat)
    (h0 : b0 = 0xE1) :
    e1.decode [b0, b1, b2, b3, b4, b5, b6, b7, b8, b9, b10, b11, b12, b13,
        b14, b15, b16, b17, b18, b19, b20, b21, x22, x23, x24, b25, b26, b27,
        b28, x29, x30, x31, x32, x33, b34, b35, b36, b37, b38, b39] =
      e1.decode [b0, b1, b2, b3, b4, b5, b6, b7, b8, b9, b10, b11, b12, b13,
        b14, b15, b16, b17, b18, b19, b20, b21, b22, b23, b24, b25, b26, b27,
        b28, b29, b30, b31, b32, b33, b34, b35, b36, b37, b38, b39] := by
  subst h0
  exact rfl

/-- Witness for `c10_e1_unread_bytes`: two concrete valid payloads differing
exactly at the unread bytes decode identically. -/
theorem c10_e1_unread_bytes_witness :
    (0xE1 : Nat) = 0xE1 ∧
    e1.decode [0xE1, 0, 0, 0, 0, 0, 0, 0, 0, 0, 0, 0, 0, 0, 0, 0, 0, 0, 0,
        0, 0, 0, 9, 9, 9, 0, 0, 0, 0, 9, 9, 9, 9, 9, 0, 0, 0, 0, 0, 0] =
      e1.decode [0xE1, 0, 0, 0, 0, 0, 0, 0, 0, 0, 0, 0, 0, 0, 0, 0, 0, 0, 0,
        0, 0, 0, 0, 0, 0, 0, 0, 0, 0, 0, 0, 0, 0, 0, 0, 0, 0, 0, 0, 0] :=
  ⟨rfl, c10_e1_unread_bytes 0xE1 0 0 0 0 0 0 0 0 0 0 0 0 0 0 0 0 0 0 0 0 0
    0 0 0 0 0 0 0 0 0 0 0 0 0 0 0 0 0 0 9 9 9 9 9 9 9 9 rfl⟩

lemma ite_none_iff {α : Type} (c : Prop) [Decidable c] (x : α) :
    (if c then none else some x) = none ↔ c := by
  split <;> simp_all

lemma i16_min_iff (a b : Nat) (ha : a < 256) (hb : b < 256) :
    i16_from_be a b = -32768 ↔ u16_from_be a b = 32768 := by
  unfold i16_from_be u16_from_be
  split <;> omega

/-- C3 (counterexample): a valid format-6 payload whose CO2 word is 40001
(`0x9C41`) decodes CO2 to `none`, and one with 40002 does too; `none` is
produced at two distinct raw encodings, neither of them the all-ones
sentinel 65535, so absence is not equivalent to a single sentinel pattern. -/
theorem c3_sentinel_counterexample :
    (v6.decode [6, 0, 0, 0, 0, 0, 0, 0, 0, 0x9C, 0x41, 0, 0, 0, 0, 0, 0,
      0, 0, 0]).map v6.DataFormatV6.co2 = .ok none ∧
    (v6.decode [6, 0, 0, 0, 0, 0, 0, 0, 0, 0x9C, 0x42, 0, 0, 0, 0, 0, 0,
      0, 0, 0]).map v6.DataFormatV6.co2 = .ok none ∧
    u16_from_be 0x9C 0x41 = 40001 ∧ u16_from_be 0x9C 0x42 = 40002 ∧
    (40001 : Nat) ≠ 65535 ∧ (40002 : Nat) ≠ 65535 ∧ (40001 : Nat) ≠ 40002 :=
  ⟨rfl, rfl, by decide, by decide, by decide, by decide, by decide⟩

/-- C3 (amended): absence of each optional field, characterised per variant.
In format 5 every optional field is `none` exactly when its raw encoding
equals its documented sentinel.  In formats 6 and E1 the range-checked
fields (format-6 humidity, PM2.5 and CO2, and the VOC/NOx indices of both
formats) are `none` exactly when the raw value exceeds the documented
maximum (40000 / 10000 / 40000 / 500), not only at a sentinel; every other
optional field follows sentinel equality, and the format-6 reserved and
measurement-sequence fields are always present. -/
theorem c3_none_characterisation :
    (∀ b0 b1 b2 b3 b4 b5 b6 b7 b8 b9 b10 b11 b12 b13 b14 b15 b16 b17 b18 b19
        b20 b21 b22 b23 : Nat, b0 = 5 →
      (∀ x ∈ [b0, b1, b2, b3, b4, b5, b6, b7, b8, b9, b10, b11, b12, b13,
        b14, b15, b16, b17, b18, b19, b20, b21, b22, b23], x < 256) →
      ∃ r, v5.decode [b0, b1, b2, b3, b4, b5, b6, b7, b8, b9, b10, b11, b12,
          b13, b14, b15, b16, b17, b18, b19, b20, b21, b22, b23] = .ok r ∧
        (r.temperature = none ↔ u16_from_be b1 b2 = 32768) ∧
        (r.humidity = none ↔ u16_from_be b3 b4 = 65535) ∧
        (r.pressure = none ↔ u16_from_be b5 b6 = 65535) ∧
        (r.acceleration_x = none ↔ u16_from_be b7 b8 = 32768) ∧
        (r.acceleration_y = none ↔ u16_from_be b9 b10 = 32768) ∧
        (r.acceleration_z = none ↔ u16_from_be b11 b12 = 32768) ∧
        (r.battery_voltage = none ↔ u16_from_be b13 b14 / 32 = 2047) ∧
        (r.tx_power = none ↔ u16_from_be b13 b14 % 32 = 31) ∧
        (r.movement_counter = none ↔ b15 = 255) ∧
        (r.measurement_sequence = none ↔ u16_from_be b16 b17 = 65535)) ∧
    (∀ a0 a1 a2 a3 a4 a5 a6 a7 a8 a9 a10 a11 a12 a13 a14 a15 a16 a17 a18
        a19 : Nat, a0 = 6 → a1 < 256 → a2 < 256 →
      ∃ r, v6.decode [a0, a1, a2, a3, a4, a5, a6, a7, a8, a9, a10, a11, a12,
          a13, a14, a15, a16, a17, a18, a19] = .ok r ∧
        (r.temperature = none ↔ u16_from_be a1 a2 = 32768) ∧
        (r.humidity = none ↔ u16_from_be a3 a4 > 40000) ∧
        (r.pressure = none ↔ u16_from_be a5 a6 = 65535) ∧
        (r.pm2_5 = none ↔ u16_from_be a7 a8 > 10000) ∧
        (r.co2 = none ↔ u16_from_be a9 a10 > 40000) ∧
        (r.voc_index = none ↔ 2 * a11 + a16 / 64 % 2 > 500) ∧
        (r.nox_index = none ↔ 2 * a12 + a16 / 128 % 2 > 500) ∧
        (r.luminosity = none ↔ a13 = 255) ∧
        r.reserved ≠ none ∧ r.measurement_sequence ≠ none) ∧
    (∀ c0 c1 c2 c3 c4 c5 c6 c7 c8 c9 c10 c11 c12 c13 c14 c15 c16 c17 c18 c19
        c20 c21 c22 c23 c24 c25 c26 c27 c28 c29 c30 c31 c32 c33 c34 c35 c36
        c37 c38 c39 : Nat, c0 = 0xE1 → c1 < 256 → c2 < 256 →
      ∃ r, e1.decode [c0, c1, c2, c3, c4, c5, c6, c7, c8, c9, c10, c11, c12,
          c13, c14, c15, c16, c17, c18, c19, c20, c21, c22, c23, c24, c25,
          c26, c27, c28, c29, c30, c31, c32, c33, c34, c35, c36, c37, c38,
          c39] = .ok r ∧
        (r.temperature = none ↔ u16_from_be c1 c2 = 32768) ∧
        (r.humidity = none ↔ u16_from_be c3 c4 = 65535) ∧
        (r.pressure = none ↔ u16_from_be c5 c6 = 65535) ∧
        (r.pm1_0 = none ↔ u16_from_be c7 c8 = 65535) ∧
        (r.pm2_5 = none ↔ u16_from_be c9 c10 = 65535) ∧
        (r.pm4_0 = none ↔ u16_from_be c11 c12 = 65535) ∧
        (r.pm10_0 = none ↔ u16_from_be c13 c14 = 65535) ∧
        (r.co2 = none ↔ u16_from_be c15 c16 = 65535) ∧
        (r.voc_index = none ↔ 2 * c17 + c28 / 64 % 2 > 500) ∧
        (r.nox_index = none ↔ 2 * c18 + c28 / 128 % 2 > 500) ∧
        (r.luminosity = none ↔ (c19 <<< 16) ||| (c20 <<< 8) ||| c21 = 0xFFFFFF) ∧
        (r.measurement_sequence = none ↔
          (c25 <<< 16) ||| (c26 <<< 8) ||| c27 = 0xFFFFFF)) := by
  refine ⟨?_, ?_, ?_⟩
  · intro b0 b1 b2 b3 b4 b5 b6 b7 b8 b9 b10 b11 b12 b13 b14 b15 b16 b17 b18
      b19 b20 b21 b22 b23 h0 hlt
    subst h0
    have h1 : b1 < 256 := hlt b1 (by simp)
    have h2 : b2 < 256 := hlt b2 (by simp)
    have h7 : b7 < 256 := hlt b7 (by simp)
    have h8 : b8 < 256 := hlt b8 (by simp)
    have h9 : b9 < 256 := hlt b9 (by simp)
    have h10 : b10 < 256 := hlt b10 (by simp)
    have h11 : b11 < 256 := hlt b11 (by simp)
    have h12 : b12 < 256 := hlt b12 (by simp)
    have h13 : b13 < 256 := hlt b13 (by simp)
    have h14 : b14 < 256 := hlt b14 (by simp)
    have hw : u16_from_be b13 b14 < 65536 := u16_from_be_lt b13 b14 h13 h14
    refine ⟨_, rfl, ?_, ?_, ?_, ?_, ?_, ?_, ?_, ?_, ?_, ?_⟩
    · exact (ite_none_iff (i16_from_be b1 b2 = -32768)
        ((i16_from_be b1 b2 : ℚ) * (5 / 1000))).trans (i16_min_iff b1 b2 h1 h2)
    · exact ite_none_iff (u16_from_be b3 b4 = 65535)
        ((u16_from_be b3 b4 : ℚ) * (25 / 10000))
    · exact ite_none_iff (u16_from_be b5 b6 = 65535)
        ((u16_from_be b5 b6 : ℚ) + 50000)
    · exact (ite_none_iff (i16_from_be b7 b8 = -32768)
        (i16_from_be b7 b8)).trans (i16_min_iff b7 b8 h7 h8)
    · exact (ite_none_iff (i16_from_be b9 b10 = -32768)
        (i16_from_be b9 b10)).trans (i16_min_iff b9 b10 h9 h10)
    · exact (ite_none_iff (i16_from_be b11 b12 = -32768)
        (i16_from_be b11 b12)).trans (i16_min_iff b11 b12 h11 h12)
    · exact (ite_none_iff ((u16_from_be b13 b14 >>> 5) &&& 0x07FF = 2047)
        (((u16_from_be b13 b14 >>> 5) &&& 0x07FF) + 1600)).trans
        (by rw [shiftRight_and_eq_div _ hw])
    · exact (ite_none_iff (u16_from_be b13 b14 &&& 0x001F = 31)
        (-40 + ((u16_from_be b13 b14 &&& 0x001F : Nat) : Int) * 2)).trans
        (by rw [and_31_eq_mod])
    · exact ite_none_iff (b15 = 255) b15
    · exact ite_none_iff (u16_from_be b16 b17 = 65535) (u16_from_be b16 b17)
  · intro a0 a1 a2 a3 a4 a5 a6 a7 a8 a9 a10 a11 a12 a13 a14 a15 a16 a17 a18
      a19 h0 h1 h2
    subst h0
    refine ⟨_, rfl, ?_, ?_, ?_, ?_, ?_, ?_, ?_, ?_, ?_, ?_⟩
    · exact (ite_none_iff (i16_from_be a1 a2 = -32768)
        ((i16_from_be a1 a2 : ℚ) * (5 / 1000))).trans (i16_min_iff a1 a2 h1 h2)
    · exact ite_none_iff (u16_from_be a3 a4 > 40000)
        ((u16_from_be a3 a4 : ℚ) * (25 / 10000))
    · exact ite_none_iff (u16_from_be a5 a6 = 65535)
        ((((u16_from_be a5 a6 : Int) + 50000 : Int) : ℚ) / 100)
    · exact ite_none_iff (u16_from_be a7 a8 > 10000)
        ((u16_from_be a7 a8 : ℚ) * (1 / 10))
    · exact ite_none_iff (u16_from_be a9 a10 > 40000) (u16_from_be a9 a10)
    · exact (ite_none_iff ((a11 <<< 1) ||| ((a16 &&& 64) >>> 6) > 500)
        ((a11 <<< 1) ||| ((a16 &&& 64) >>> 6))).trans
        (by rw [assemble_bit6])
    · exact (ite_none_iff ((a12 <<< 1) ||| ((a16 &&& 128) >>> 7) > 500)
        ((a12 <<< 1) ||| ((a16 &&& 128) >>> 7))).trans
        (by rw [assemble_bit7])
    · exact ite_none_iff (a13 = 255)
        (min (Real.exp (((round ((a13 : Nat) : ℝ) : Int) : ℝ) *
          (Real.log (65535 + 1) / 254)) - 1) 65535)
    · exact Option.some_ne_none _
    · exact Option.some_ne_none _
  · intro c0 c1 c2 c3 c4 c5 c6 c7 c8 c9 c10 c11 c12 c13 c14 c15 c16 c17 c18
      c19 c20 c21 c22 c23 c24 c25 c26 c27 c28 c29 c30 c31 c32 c33 c34 c35
      c36 c37 c38 c39 h0 h1 h2
    subst h0
    refine ⟨_, rfl, ?_, ?_, ?_, ?_, ?_, ?_, ?_, ?_, ?_, ?_, ?_, ?_⟩
    · exact (ite_none_iff (i16_from_be c1 c2 = -32768)
        ((i16_from_be c1 c2 : ℚ) * (5 / 1000))).trans (i16_min_iff c1 c2 h1 h2)
    · exact ite_none_iff (u16_from_be c3 c4 = 65535)
        ((u16_from_be c3 c4 : ℚ) * (25 / 10000))
    · exact ite_none_iff (u16_from_be c5 c6 = 65535)
        ((((u16_from_be c5 c6 : Int) + 50000 : Int) : ℚ) / 100)
    · exact ite_none_iff (u16_from_be c7 c8 = 65535)
        ((u16_from_be c7 c8 : ℚ) * (1 / 10))
    · exact ite_none_iff (u16_from_be c9 c10 = 65535)
        ((u16_from_be c9 c10 : ℚ) * (1 / 10))
    · exact ite_none_iff (u16_from_be c11 c12 = 65535)
        ((u16_from_be c11 c12 : ℚ) * (1 / 10))
    · exact ite_none_iff (u16_from_be c13 c14 = 65535)
        ((u16_from_be c13 c14 : ℚ) * (1 / 10))
    · exact ite_none_iff (u16_from_be c15 c16 = 65535) (u16_from_be c15 c16)
    · exact (ite_none_iff ((c17 <<< 1) ||| ((c28 &&& 64) >>> 6) > 500)
        ((c17 <<< 1) ||| ((c28 &&& 64) >>> 6))).trans
        (by rw [assemble_bit6])
    · exact (ite_none_iff ((c18 <<< 1) ||| ((c28 &&& 128) >>> 7) > 500)
        ((c18 <<< 1) ||| ((c28 &&& 128) >>> 7))).trans
        (by rw [assemble_bit7])
    · exact ite_none_iff ((c19 <<< 16) ||| (c20 <<< 8) ||| c21 = 0xFFFFFF)
        (((c19 <<< 16) ||| (c20 <<< 8) ||| c21 : Nat) * ((1 : ℚ) / 100))
    · exact ite_none_iff ((c25 <<< 16) ||| (c26 <<< 8) ||| c27 = 0xFFFFFF)
        ((c25 <<< 16) ||| (c26 <<< 8) ||| c27)

/-- Witness for `c3_none_characterisation`: all three parts instantiated at
concrete all-zero payloads with the correct format identifiers, hypotheses
discharged by evaluation. -/
theorem c3_none_characterisation_witness :
    ((5 : Nat) = 5 ∧
      (∀ x ∈ [(5 : Nat), 0, 0, 0, 0, 0, 0, 0, 0, 0, 0, 0, 0, 0, 0, 0, 0, 0,
        0, 0, 0, 0, 0, 0], x < 256)) ∧
    (∃ r, v5.decode [5, 0, 0, 0, 0, 0, 0, 0, 0, 0, 0, 0, 0, 0, 0, 0, 0, 0,
        0, 0, 0, 0, 0, 0] = .ok r ∧
      (r.temperature = none ↔ u16_from_be 0 0 = 32768) ∧
      (r.humidity = none ↔ u16_from_be 0 0 = 65535) ∧
      (r.pressure = none ↔ u16_from_be 0 0 = 65535) ∧
      (r.acceleration_x = none ↔ u16_from_be 0 0 = 32768) ∧
      (r.acceleration_y = none ↔ u16_from_be 0 0 = 32768) ∧
      (r.acceleration_z = none ↔ u16_from_be 0 0 = 32768) ∧
      (r.battery_voltage = none ↔ u16_from_be 0 0 / 32 = 2047) ∧
      (r.tx_power = none ↔ u16_from_be 0 0 % 32 = 31) ∧
      (r.movement_counter = none ↔ (0 : Nat) = 255) ∧
      (r.measurement_sequence = none ↔ u16_from_be 0 0 = 65535)) ∧
    (∃ r, v6.decode [6, 0, 0, 0, 0, 0, 0, 0, 0, 0, 0, 0, 0, 0, 0, 0, 0, 0,
        0, 0] = .ok r ∧
      (r.temperature = none ↔ u16_from_be 0 0 = 32768) ∧
      (r.humidity = none ↔ u16_from_be 0 0 > 40000) ∧
      (r.pressure = none ↔ u16_from_be 0 0 = 65535) ∧
      (r.pm2_5 = none ↔ u16_from_be 0 0 > 10000) ∧
      (r.co2 = none ↔ u16_from_be 0 0 > 40000) ∧
      (r.voc_index = none ↔ 2 * 0 + 0 / 64 % 2 > 500) ∧
      (r.nox_index = none ↔ 2 * 0 + 0 / 128 % 2 > 500) ∧
      (r.luminosity = none ↔ (0 : Nat) = 255) ∧
      r.reserved ≠ none ∧ r.measurement_sequence ≠ none) ∧
    (∃ r, e1.decode [0xE1, 0, 0, 0, 0, 0, 0, 0, 0, 0, 0, 0, 0, 0, 0, 0, 0, 0,
        0, 0, 0, 0, 0, 0, 0, 0, 0, 0, 0, 0, 0, 0, 0, 0, 0, 0, 0, 0, 0, 0] =
        .ok r ∧
      (r.temperature = none ↔ u16_from_be 0 0 = 32768) ∧
      (r.humidity = none ↔ u16_from_be 0 0 = 65535) ∧
      (r.pressure = none ↔ u16_from_be 0 0 = 65535) ∧
      (r.pm1_0 = none ↔ u16_from_be 0 0 = 65535) ∧
      (r.pm2_5 = none ↔ u16_from_be 0 0 = 65535) ∧
      (r.pm4_0 = none ↔ u16_from_be 0 0 = 65535) ∧
      (r.pm10_0 = none ↔ u16_from_be 0 0 = 65535) ∧
      (r.co2 = none ↔ u16_from_be 0 0 = 65535) ∧
      (r.voc_index = none ↔ 2 * 0 + 0 / 64 % 2 > 500) ∧
      (r.nox_index = none ↔ 2 * 0 + 0 / 128 % 2 > 500) ∧
      (r.luminosity = none ↔
        ((0 : Nat) <<< 16) ||| ((0 : Nat) <<< 8) ||| (0 : Nat) = 0xFFFFFF) ∧
      (r.measurement_sequence = none ↔
        ((0 : Nat) <<< 16) ||| ((0 : Nat) <<< 8) ||| (0 : Nat) = 0xFFFFFF)) :=
  ⟨⟨rfl, by decide⟩,
    c3_none_characterisation.1 5 0 0 0 0 0 0 0 0 0 0 0 0 0 0 0 0 0 0 0 0 0 0
      0 rfl (by decide),
    c3_none_characterisation.2.1 6 0 0 0 0 0 0 0 0 0 0 0 0 0 0 0 0 0 0 0 rfl
      (by decide) (by decide),
    c3_none_characterisation.2.2 0xE1 0 0 0 0 0 0 0 0 0 0 0 0 0 0 0 0 0 0 0 0
      0 0 0 0 0 0 0 0 0 0 0 0 0 0 0 0 0 0 0 rfl (by decide) (by decide)⟩

/-- Unified record type `RuuviData` of `ruuvi_data.rs`. -/
inductive RuuviData where
  | V5 : v5.DataFormatV5 → RuuviData
  | V6 : v6.DataFormatV6 → RuuviData
  | E1 : e1.DataFormatE1 → RuuviData

namespace RuuviData

/-- `RuuviData::decode`: dispatch on `data[0]`.  The source indexes `data[0]`
with no emptiness check, which panics on an empty slice; the panic is
modelled as the outer `none`. -/
noncomputable def decode (data : List Nat) : Option (Except DecodeError RuuviData) :=
  match data with
  | [] => none
  | b :: rest =>
    some (match b with
      | 5 =>
        match v5.decode (b :: rest) with
        | .ok d => .ok (RuuviData.V5 d)
        | .error e => .error e
      | 6 =>
        match v6.decode (b :: rest) with
        | .ok d => .ok (RuuviData.V6 d)
        | .error e => .error e
      | 0xE1 =>
        match e1.decode (b :: rest) with
        | .ok d => .ok (RuuviData.E1 d)
        | .error e => .error e
      | other => .error (.UnsupportedFormat other))

/-- `TryFrom<&[u8]> for RuuviData`, which delegates to `RuuviData::decode`. -/
noncomputable def try_from (value : List Nat) : Option (Except DecodeError RuuviData) :=
  RuuviData.decode value

end RuuviData

/-- ASCII hex-digit test `u8::is_ascii_hexdigit` (`0-9`, `a-f`, `A-F`). -/
def is_ascii_hexdigit (c : Char) : Bool :=
  (48 ≤ c.toNat && c.toNat ≤ 57) || (97 ≤ c.toNat && c.toNat ≤ 102) ||
    (65 ≤ c.toNat && c.toNat ≤ 70)

/-- Numeric value of one hex digit, `none` for a non-hex character. -/
def hexVal (c : Char) : Option Nat :=
  if 48 ≤ c.toNat ∧ c.toNat ≤ 57 then some (c.toNat - 48)
  else if 97 ≤ c.toNat ∧ c.toNat ≤ 102 then some (c.toNat - 87)
  else if 65 ≤ c.toNat ∧ c.toNat ≤ 70 then some (c.toNat - 55)
  else none

/-- Byte conversion of `hex::decode`: consecutive pairs of hex digits, `none`
on an odd count or a non-hex character. -/
def hexPairsToBytes : List Char → Option (List Nat)
  | [] => some []
  | [_] => none
  | c1 :: c2 :: rest =>
    match hexVal c1, hexVal c2, hexPairsToBytes rest with
    | some hi, some lo, some bs => some ((hi * 16 + lo) :: bs)
    | _, _, _ => none

/-- `str::trim` modelled on the character list (ASCII whitespace). -/
def trimChars (s : List Char) : List Char :=
  ((s.dropWhile Char.isWhitespace).reverse.dropWhile Char.isWhitespace).reverse

/-- `str::trim_start_matches("0x")`: strips every repetition of a leading
`0x`. -/
def trim_start_matches_0x : List Char → List Char
  | '0' :: 'x' :: rest => trim_start_matches_0x rest
  | s => s

/-- `str::replace(' ', "")`: removes every space. -/
def removeSpaces (s : List Char) : List Char := s.filter (fun c => c ≠ ' ')

/-- Normalisation pipeline of `lib.rs decode`:
`hex_data.trim().trim_start_matches("0x").replace(' ', "")`. -/
def cleanHex (hex_data : List Char) : List Char :=
  removeSpaces (trim_start_matches_0x (trimChars hex_data))

/-- `lib.rs hex_to_bytes`: rejects an odd character count with `InvalidHex`,
then converts, mapping any `hex::decode` failure to `InvalidHex` carrying the
input. -/
def hex_to_bytes (hex_str : List Char) : Except DecodeError (List Nat) :=
  if hex_str.length % 2 ≠ 0 then
    .error (.InvalidHex
      ("Odd number of hex characters: " ++ toString hex_str.length))
  else
    match hexPairsToBytes hex_str with
    | some bytes => .ok bytes
    | none => .error (.InvalidHex (String.mk hex_str))

/-- `lib.rs decode`: normalises the hex string, converts to bytes, rejects
the empty byte string, then dispatches on byte 0.  `bytes[0]` is read only
after the emptiness check, so it is modelled by `getD`. -/
noncomputable def decode (hex_data : List Char) : Except DecodeError RuuviData :=
  let clean_hex := cleanHex hex_data
  match hex_to_bytes clean_hex with
  | .error e => .error e
  | .ok bytes =>
    if bytes.isEmpty then .error (.InvalidLength "Empty data")
    else
      match bytes.getD 0 0 with
      | 5 =>
        match v5.decode bytes with
        | .ok d => .ok (.V5 d)
        | .error e => .error e
      | 6 =>
        match v6.decode bytes with
        | .ok d => .ok (.V6 d)
        | .error e => .error e
      | 0xE1 =>
        match e1.decode bytes with
        | .ok d => .ok (.E1 d)
        | .error e => .error e
      | format => .error (.UnsupportedFormat format)

/-- First index at which the pattern occurs, `str::find` on the character
list. -/
def findSub (hay pat : List Char) : Option Nat :=
  if pat.isPrefixOf hay then some 0
  else
    match hay with
    | [] => none
    | _ :: t => (findSub t pat).map (· + 1)

/-- Body of the per-pattern loop iteration of `extract_ruuvi_from_ble`:
find the pattern, reject a match that is not at index 0, then slice off the
4-character manufacturer id; all non-returning paths fall through to the
next pattern as `none`. -/
def extract_pattern (clean_data pat : List Char) : Option (List Char) :=
  match findSub clean_data pat with
  | some start_idx =>
    if start_idx ≠ 0 then none
    else
      let payload_start := start_idx + 4
      if payload_start ≤ clean_data.length then
        some (clean_data.drop payload_start)
      else none
  | none => none

/-- `lib.rs extract_ruuvi_from_ble`: trim and upper-case, require pure hex,
then try the markers `"9904"` and `"0499"` in order. -/
def extract_ruuvi_from_ble (ble_data : List Char) : Option (List Char) :=
  let clean_data := (trimChars ble_data).map Char.toUpper
  if !(clean_data.all is_ascii_hexdigit) then none
  else
    match extract_pattern clean_data ['9', '9', '0', '4'] with
    | some payload => some payload
    | none => extract_pattern clean_data ['0', '4', '9', '9']

/-- C1: the byte-level entry points panic on the empty input.
`RuuviData::decode` (and the `TryFrom` impl that delegates to it) index
`data[0]` before any length check, so the empty slice hits the modelled
panic (`none`) instead of a typed `DecodeError`; the hex-string entry point
guards the same read with an emptiness check and returns a typed error. -/
theorem c1_empty_slice_panics :
    RuuviData.decode [] = none ∧ RuuviData.try_from [] = none ∧
    decode ("".data) = .error (.InvalidLength "Empty data") :=
  ⟨rfl, rfl, rfl⟩

/-- Classifier used to state that a result is not a length error. -/
def isLengthError : Except DecodeError RuuviData → Bool
  | .error (.InvalidLength _) => true
  | _ => false

/-- C4 (counterexample): the hex input `"6300"` is 2 bytes, a length that
matches no registered format, and its first byte `0x63` is unregistered; the
decoder reports `UnsupportedFormat 0x63`, not the length error the claim
predicts, because dispatch on the format byte happens before any payload
length check. -/
theorem c4_order_counterexample :
    decode ("6300".data) = .error (.UnsupportedFormat 0x63) ∧
    isLengthError (decode ("6300".data)) = false ∧
    hex_to_bytes (cleanHex ("6300".data)) = .ok [0x63, 0] ∧
    ((2 : Nat) ≠ 24 ∧ (2 : Nat) ≠ 20 ∧ (2 : Nat) ≠ 40) :=
  ⟨rfl, rfl, rfl, by decide⟩

lemma v5_decode_wrong_length (bytes : List Nat) (h : bytes.length ≠ 24) :
    v5.decode bytes = .error (DecodeError.invalid_length 24 bytes.length) := by
  unfold v5.decode
  rw [if_pos (show bytes.length ≠ v5.PAYLOAD_WITH_MAC_LENGTH by
    simpa [v5.PAYLOAD_WITH_MAC_LENGTH, v5.PAYLOAD_LENGTH] using h)]
  rfl

lemma v6_decode_wrong_length (bytes : List Nat) (h : bytes.length ≠ 20) :
    v6.decode bytes = .error (DecodeError.invalid_length 20 bytes.length) := by
  unfold v6.decode
  rw [if_pos (show bytes.length ≠ v6.PAYLOAD_WITH_MAC_LENGTH by
    simpa [v6.PAYLOAD_WITH_MAC_LENGTH, v6.PAYLOAD_LENGTH] using h)]
  rfl

lemma e1_decode_wrong_length (bytes : List Nat) (h : bytes.length ≠ 40) :
    e1.decode bytes = .error (DecodeError.invalid_length 40 bytes.length) := by
  unfold e1.decode
  rw [if_pos (show bytes.length ≠ e1.PAYLOAD_WITH_MAC_LENGTH by
    simpa [e1.PAYLOAD_WITH_MAC_LENGTH, e1.PAYLOAD_LENGTH] using h)]
  rfl

/-- C4 (amended): failures short-circuit in the implemented order — hex
validity first, then the empty-byte-string length check, then format-byte
registration, and only then the per-format length check; in particular an
input of unmatched length whose first byte is unregistered fails with
`UnsupportedFormat`, not `InvalidLength`. -/
theorem c4_validation_order :
    (∀ s e, hex_to_bytes (cleanHex s) = .error e → decode s = .error e) ∧
    (∀ s, hex_to_bytes (cleanHex s) = .ok [] →
      decode s = .error (.InvalidLength "Empty data")) ∧
    (∀ s b rest, hex_to_bytes (cleanHex s) = .ok (b :: rest) →
      b ≠ 5 → b ≠ 6 → b ≠ 0xE1 →
      decode s = .error (.UnsupportedFormat b)) ∧
    (∀ s rest, hex_to_bytes (cleanHex s) = .ok (5 :: rest) →
      (5 :: rest).length ≠ 24 →
      decode s = .error (DecodeError.invalid_length 24 (5 :: rest).length)) ∧
    (∀ s rest, hex_to_bytes (cleanHex s) = .ok (6 :: rest) →
      (6 :: rest).length ≠ 20 →
      decode s = .error (DecodeError.invalid_length 20 (6 :: rest).length)) ∧
    (∀ s rest, hex_to_bytes (cleanHex s) = .ok (0xE1 :: rest) →
      (0xE1 :: rest).length ≠ 40 →
      decode s = .error (DecodeError.invalid_length 40 (0xE1 :: rest).length)) := by
  refine ⟨?_, ?_, ?_, ?_, ?_, ?_⟩
  · intro s e h
    simp only [decode, h]
  · intro s h
    simp only [decode, h]
    rfl
  · intro s b rest h h5 h6 hE
    simp only [decode, h]
    simp only [List.isEmpty_cons, Bool.false_eq_true, if_false,
      List.getD_cons_zero]
  · intro s rest h hlen
    simp only [decode, h]
    simp only [List.isEmpty_cons, Bool.false_eq_true, if_false,
      List.getD_cons_zero]
    rw [v5_decode_wrong_length _ hlen]
  · intro s rest h hlen
    simp only [decode, h]
    simp only [List.isEmpty_cons, Bool.false_eq_true, if_false,
      List.getD_cons_zero]
    rw [v6_decode_wrong_length _ hlen]
  · intro s rest h hlen
    simp only [decode, h]
    simp only [List.isEmpty_cons, Bool.false_eq_true, if_false,
      List.getD_cons_zero]
    rw [e1_decode_wrong_length _ hlen]

/-- Witness for `c4_validation_order`: the unregistered-format conjunct
instantiated at the concrete input `"6300"`. -/
theorem c4_validation_order_witness :
    hex_to_bytes (cleanHex ("6300".data)) = .ok (0x63 :: [0]) ∧
    (0x63 : Nat) ≠ 5 ∧ (0x63 : Nat) ≠ 6 ∧ (0x63 : Nat) ≠ 0xE1 ∧
    decode ("6300".data) = .error (.UnsupportedFormat 0x63) :=
  ⟨rfl, by decide, by decide, by decide,
    c4_validation_order.2.2.1 ("6300".data) 0x63 [0] rfl (by decide)
      (by decide) (by decide)⟩

lemma dispatch_unregistered (b : Nat) (rest : List Nat)
    (h5 : b ≠ 5) (h6 : b ≠ 6) (hE : b ≠ 0xE1) :
    RuuviData.decode (b :: rest) = some (.error (.UnsupportedFormat b)) := by
  unfold RuuviData.decode
  split <;> simp_all

/-- C5: for every valid buffer of each of the three formats, replacing the
format byte with any unregistered value yields `UnsupportedFormat` carrying
exactly that byte, and removing the final byte or appending one byte yields
`InvalidLength` carrying the expected and actual byte counts. -/
theorem c5_format_and_length_boundary :
    (∀ b0 b1 b2 b3 b4 b5 b6 b7 b8 b9 b10 b11 b12 b13 b14 b15 b16 b17 b18 b19
        b20 b21 b22 b23 : Nat, b0 = 5 →
      (∀ f, f ≠ 5 → f ≠ 6 → f ≠ 0xE1 →
        RuuviData.decode [f, b1, b2, b3, b4, b5, b6, b7, b8, b9, b10, b11,
          b12, b13, b14, b15, b16, b17, b18, b19, b20, b21, b22, b23] =
          some (.error (.UnsupportedFormat f))) ∧
      RuuviData.decode [b0, b1, b2, b3, b4, b5, b6, b7, b8, b9, b10, b11,
          b12, b13, b14, b15, b16, b17, b18, b19, b20, b21, b22] =
        some (.error (DecodeError.invalid_length 24 23)) ∧
      (∀ x, RuuviData.decode [b0, b1, b2, b3, b4, b5, b6, b7, b8, b9, b10,
          b11, b12, b13, b14, b15, b16, b17, b18, b19, b20, b21, b22, b23,
          x] = some (.error (DecodeError.invalid_length 24 25)))) ∧
    (∀ a0 a1 a2 a3 a4 a5 a6 a7 a8 a9 a10 a11 a12 a13 a14 a15 a16 a17 a18
        a19 : Nat, a0 = 6 →
      (∀ f, f ≠ 5 → f ≠ 6 → f ≠ 0xE1 →
        RuuviData.decode [f, a1, a2, a3, a4, a5, a6, a7, a8, a9, a10, a11,
          a12, a13, a14, a15, a16, a17, a18, a19] =
          some (.error (.UnsupportedFormat f))) ∧
      RuuviData.decode [a0, a1, a2, a3, a4, a5, a6, a7, a8, a9, a10, a11,
          a12, a13, a14, a15, a16, a17, a18] =
        some (.error (DecodeError.invalid_length 20 19)) ∧
      (∀ x, RuuviData.decode [a0, a1, a2, a3, a4, a5, a6, a7, a8, a9, a10,
          a11, a12, a13, a14, a15, a16, a17, a18, a19, x] =
          some (.error (DecodeError.invalid_length 20 21)))) ∧
    (∀ c0 c1 c2 c3 c4 c5 c6 c7 c8 c9 c10 c11 c12 c13 c14 c15 c16 c17 c18 c19
        c20 c21 c22 c23 c24 c25 c26 c27 c28 c29 c30 c31 c32 c33 c34 c35 c36
        c37 c38 c39 : Nat, c0 = 0xE1 →
      (∀ f, f ≠ 5 → f ≠ 6 → f ≠ 0xE1 →
        RuuviData.decode [f, c1, c2, c3, c4, c5, c6, c7, c8, c9, c10, c11,
          c12, c13, c14, c15, c16, c17, c18, c19, c20, c21, c22, c23, c24,
          c25, c26, c27, c28, c29, c30, c31, c32, c33, c34, c35, c36, c37,
          c38, c39] = some (.error (.UnsupportedFormat f))) ∧
      RuuviData.decode [c0, c1, c2, c3, c4, c5, c6, c7, c8, c9, c10, c11,
          c12, c13, c14, c15, c16, c17, c18, c19, c20, c21, c22, c23, c24,
          c25, c26, c27, c28, c29, c30, c31, c32, c33, c34, c35, c36, c37,
          c38] = some (.error (DecodeError.invalid_length 40 39)) ∧
      (∀ x, RuuviData.decode [c0, c1, c2, c3, c4, c5, c6, c7, c8, c9, c10,
          c11, c12, c13, c14, c15, c16, c17, c18, c19, c20, c21, c22, c23,
          c24, c25, c26, c27, c28, c29, c30, c31, c32, c33, c34, c35, c36,
          c37, c38, c39, x] =
          some (.error (DecodeError.invalid_length 40 41)))) := by
  refine ⟨?_, ?_, ?_⟩
  · intro b0 b1 b2 b3 b4 b5 b6 b7 b8 b9 b10 b11 b12 b13 b14 b15 b16 b17 b18
      b19 b20 b21 b22 b23 h0
    subst h0
    exact ⟨fun f h5 h6 hE => dispatch_unregistered f _ h5 h6 hE, rfl,
      fun x => rfl⟩
  · intro a0 a1 a2 a3 a4 a5 a6 a7 a8 a9 a10 a11 a12 a13 a14 a15 a16 a17 a18
      a19 h0
    subst h0
    exact ⟨fun f h5 h6 hE => dispatch_unregistered f _ h5 h6 hE, rfl,
      fun x => rfl⟩
  · intro c0 c1 c2 c3 c4 c5 c6 c7 c8 c9 c10 c11 c12 c13 c14 c15 c16 c17 c18
      c19 c20 c21 c22 c23 c24 c25 c26 c27 c28 c29 c30 c31 c32 c33 c34 c35
      c36 c37 c38 c39 h0
    subst h0
    exact ⟨fun f h5 h6 hE => dispatch_unregistered f _ h5 h6 hE, rfl,
      fun x => rfl⟩

/-- Witness for `c5_format_and_length_boundary`: all three parts instantiated
at concrete valid buffers, with replacement byte 7 and appended byte 0. -/
theorem c5_format_and_length_boundary_witness :
    ((5 : Nat) = 5 ∧ (6 : Nat) = 6 ∧ (0xE1 : Nat) = 0xE1 ∧
      (7 : Nat) ≠ 5 ∧ (7 : Nat) ≠ 6 ∧ (7 : Nat) ≠ 0xE1) ∧
    RuuviData.decode [7, 0, 0, 0, 0, 0, 0, 0, 0, 0, 0, 0, 0, 0, 0, 0, 0, 0,
        0, 0, 0, 0, 0, 0] = some (.error (.UnsupportedFormat 7)) ∧
    RuuviData.decode [5, 0, 0, 0, 0, 0, 0, 0, 0, 0, 0, 0, 0, 0, 0, 0, 0, 0,
        0, 0, 0, 0, 0] = some (.error (DecodeError.invalid_length 24 23)) ∧
    RuuviData.decode [5, 0, 0, 0, 0, 0, 0, 0, 0, 0, 0, 0, 0, 0, 0, 0, 0, 0,
        0, 0, 0, 0, 0, 0, 0] =
      some (.error (DecodeError.invalid_length 24 25)) ∧
    RuuviData.decode [7, 0, 0, 0, 0, 0, 0, 0, 0, 0, 0, 0, 0, 0, 0, 0, 0, 0,
        0, 0] = some (.error (.UnsupportedFormat 7)) ∧
    RuuviData.decode [6, 0, 0, 0, 0, 0, 0, 0, 0, 0, 0, 0, 0, 0, 0, 0, 0, 0,
        0] = some (.error (DecodeError.invalid_length 20 19)) ∧
    RuuviData.decode [6, 0, 0, 0, 0, 0, 0, 0, 0, 0, 0, 0, 0, 0, 0, 0, 0, 0,
        0, 0, 0] = some (.error (DecodeError.invalid_length 20 21)) ∧
    RuuviData.decode [7, 0, 0, 0, 0, 0, 0, 0, 0, 0, 0, 0, 0, 0, 0, 0, 0, 0,
        0, 0, 0, 0, 0, 0, 0, 0, 0, 0, 0, 0, 0, 0, 0, 0, 0, 0, 0, 0, 0, 0] =
      some (.error (.UnsupportedFormat 7)) ∧
    RuuviData.decode [0xE1, 0, 0, 0, 0, 0, 0, 0, 0, 0, 0, 0, 0, 0, 0, 0, 0,
        0, 0, 0, 0, 0, 0, 0, 0, 0, 0, 0, 0, 0, 0, 0, 0, 0, 0, 0, 0, 0, 0] =
      some (.error (DecodeError.invalid_length 40 39)) ∧
    RuuviData.decode [0xE1, 0, 0, 0, 0, 0, 0, 0, 0, 0, 0, 0, 0, 0, 0, 0, 0,
        0, 0, 0, 0, 0, 0, 0, 0, 0, 0, 0, 0, 0, 0, 0, 0, 0, 0, 0, 0, 0, 0, 0,
        0] = some (.error (DecodeError.invalid_length 40 41)) :=
  ⟨⟨rfl, rfl, rfl, by decide, by decide, by decide⟩,
    (c5_format_and_length_boundary.1 5 0 0 0 0 0 0 0 0 0 0 0 0 0 0 0 0 0 0 0
      0 0 0 0 rfl).1 7 (by decide) (by decide) (by decide),
    (c5_format_and_length_boundary.1 5 0 0 0 0 0 0 0 0 0 0 0 0 0 0 0 0 0 0 0
      0 0 0 0 rfl).2.1,
    (c5_format_and_length_boundary.1 5 0 0 0 0 0 0 0 0 0 0 0 0 0 0 0 0 0 0 0
      0 0 0 0 rfl).2.2 0,
    (c5_format_and_length_boundary.2.1 6 0 0 0 0 0 0 0 0 0 0 0 0 0 0 0 0 0 0
      0 rfl).1 7 (by decide) (by decide) (by decide),
    (c5_format_and_length_boundary.2.1 6 0 0 0 0 0 0 0 0 0 0 0 0 0 0 0 0 0 0
      0 rfl).2.1,
    (c5_format_and_length_boundary.2.1 6 0 0 0 0 0 0 0 0 0 0 0 0 0 0 0 0 0 0
      0 rfl).2.2 0,
    (c5_format_and_length_boundary.2.2 0xE1 0 0 0 0 0 0 0 0 0 0 0 0 0 0 0 0
      0 0 0 0 0 0 0 0 0 0 0 0 0 0 0 0 0 0 0 0 0 0 0 rfl).1 7 (by decide)
      (by decide) (by decide),
    (c5_format_and_length_boundary.2.2 0xE1 0 0 0 0 0 0 0 0 0 0 0 0 0 0 0 0
      0 0 0 0 0 0 0 0 0 0 0 0 0 0 0 0 0 0 0 0 0 0 0 rfl).2.1,
    (c5_format_and_length_boundary.2.2 0xE1 0 0 0 0 0 0 0 0 0 0 0 0 0 0 0 0
      0 0 0 0 0 0 0 0 0 0 0 0 0 0 0 0 0 0 0 0 0 0 0 rfl).2.2 0⟩

lemma findSub_of_isPrefixOf (hay pat : List Char)
    (h : pat.isPrefixOf hay = true) : findSub hay pat = some 0 := by
  unfold findSub
  simp [h]

lemma findSub_pos_of_not_isPrefixOf (hay pat : List Char)
    (h : pat.isPrefixOf hay = false) :
    ∀ i, findSub hay pat = some i → i ≠ 0 := by
  intro i hi
  unfold findSub at hi
  rw [h] at hi
  simp only [Bool.false_eq_true, if_false] at hi
  cases hay with
  | nil => simp at hi
  | cons a t =>
    simp only [Option.map_eq_some'] at hi
    obtain ⟨j, _, hj⟩ := hi
    omega

lemma length_le_of_isPrefixOf :
    ∀ (p c : List Char), p.isPrefixOf c = true → p.length ≤ c.length := by
  intro p
  induction p with
  | nil => simp
  | cons a t ih =>
    intro c hc
    cases c with
    | nil => simp [List.isPrefixOf] at hc
    | cons b u =>
      simp only [List.isPrefixOf, Bool.and_eq_true] at hc
      have := ih u hc.2
      simp only [List.length_cons]
      omega

lemma extract_pattern_eq (c pat : List Char) (h4 : pat.length = 4) :
    extract_pattern c pat =
      if pat.isPrefixOf c = true then some (c.drop 4) else none := by
  by_cases hp : pat.isPrefixOf c = true
  · have hl : 4 ≤ c.length := h4 ▸ length_le_of_isPrefixOf pat c hp
    unfold extract_pattern
    rw [findSub_of_isPrefixOf c pat hp]
    simp [hp, hl]
  · rw [if_neg hp]
    have hp' : pat.isPrefixOf c = false := by
      cases h : pat.isPrefixOf c
      · rfl
      · exact absurd h hp
    unfold extract_pattern
    cases hfs : findSub c pat with
    | none => rfl
    | some i =>
      have hi : i ≠ 0 := findSub_pos_of_not_isPrefixOf c pat hp' i hfs
      simp [hi]

/-- Extraction contract exactly as the claim words it: the trimmed,
upper-cased input must be pure hex and begin with `"9904"` or `"0499"` at
position 0, and the payload is everything after the 4-character marker. -/
def specExtract (ble_data : List Char) : Option (List Char) :=
  let c := (trimChars ble_data).map Char.toUpper
  if c.all is_ascii_hexdigit ∧
      (['9', '9', '0', '4'].isPrefixOf c ∨ ['0', '4', '9', '9'].isPrefixOf c)
  then some (c.drop 4) else none

/-- C8: the BLE extractor returns a payload exactly when the trimmed,
upper-cased input is pure hex and starts with marker `"9904"` or `"0499"`,
the payload being everything after the marker; with the two concrete
scenarios of the spec. -/
theorem c8_extract_contract :
    (∀ s, extract_ruuvi_from_ble s = specExtract s) ∧
    extract_ruuvi_from_ble
        ("99040512FC5394C37C0004FFFC040CAC364200CDCBB8334C884F".data) =
      some ("0512FC5394C37C0004FFFC040CAC364200CDCBB8334C884F".data) ∧
    extract_ruuvi_from_ble ("020106030316910255AA".data) = none := by
  refine ⟨?_, by decide, by decide⟩
  intro s
  simp only [extract_ruuvi_from_ble, specExtract]
  rw [extract_pattern_eq ((trimChars s).map Char.toUpper) ['9', '9', '0', '4']
      (by rfl),
    extract_pattern_eq ((trimChars s).map Char.toUpper) ['0', '4', '9', '9']
      (by rfl)]
  by_cases hhex : ((trimChars s).map Char.toUpper).all is_ascii_hexdigit = true
  · by_cases h9 : (['9', '9', '0', '4'].isPrefixOf
        ((trimChars s).map Char.toUpper)) = true
    · simp [hhex, h9]
    · by_cases h0 : (['0', '4', '9', '9'].isPrefixOf
          ((trimChars s).map Char.toUpper)) = true
      · simp [hhex, h9, h0]
      · simp [hhex, h9, h0]
  · simp only [Bool.not_eq_true] at hhex
    simp [hhex]

lemma hexPairs_some_all (l : List Char) :
    ∀ bs, hexPairsToBytes l = some bs → ∀ c ∈ l, (hexVal c).isSome := by
  induction l using hexPairsToBytes.induct with
  | case1 => simp
  | case2 d => intro bs h; simp [hexPairsToBytes] at h
  | case3 c1 c2 rest hi lo bs hrest h2 h1 ih =>
    intro bs' h c hc
    rcases List.mem_cons.mp hc with rfl | hc2
    · simp [h1]
    rcases List.mem_cons.mp hc2 with rfl | hc3
    · simp [h2]
    · exact ih bs hrest c hc3
  | case4 c1 c2 rest hfail ih =>
    intro bs' h c hc
    exfalso
    unfold hexPairsToBytes at h
    rcases h1 : hexVal c1 with _ | v1 <;> rw [h1] at h
    · simp at h
    rcases h2 : hexVal c2 with _ | v2 <;> rw [h2] at h
    · simp at h
    rcases h3 : hexPairsToBytes rest with _ | cs <;> rw [h3] at h
    · simp at h
    · exact hfail v1 v2 cs h1 h2 h3

/-- C9: the hex front-end trims surrounding whitespace, strips a leading
`0x` and removes embedded spaces before conversion (decoding depends only on
the normalised string); an input that normalises to the empty string is an
`InvalidLength` error, an odd hex-character count is `InvalidHex`, and a
non-hex character after normalisation is `InvalidHex`. -/
theorem c9_normalisation :
    (∀ s t, cleanHex s = cleanHex t → decode s = decode t) ∧
    (∀ s, cleanHex s = [] →
      decode s = .error (.InvalidLength "Empty data")) ∧
    (∀ s, (cleanHex s).length % 2 = 1 →
      decode s = .error (.InvalidHex
        ("Odd number of hex characters: " ++ toString (cleanHex s).length))) ∧
    (∀ s c, c ∈ cleanHex s → hexVal c = none → (cleanHex s).length % 2 = 0 →
      decode s = .error (.InvalidHex (String.mk (cleanHex s)))) := by
  refine ⟨?_, ?_, ?_, ?_⟩
  · intro s t h
    simp only [decode, h]
  · intro s h
    simp only [decode, h]
    rfl
  · intro s h
    have hb : hex_to_bytes (cleanHex s) = .error (.InvalidHex
        ("Odd number of hex characters: " ++ toString (cleanHex s).length)) := by
      unfold hex_to_bytes
      rw [if_pos (by omega)]
    simp only [decode, hb]
  · intro s c hc hv he
    have hnone : hexPairsToBytes (cleanHex s) = none := by
      cases hh : hexPairsToBytes (cleanHex s) with
      | none => rfl
      | some bs =>
        have := hexPairs_some_all (cleanHex s) bs hh c hc
        rw [hv] at this
        simp at this
    have hb : hex_to_bytes (cleanHex s) =
        .error (.InvalidHex (String.mk (cleanHex s))) := by
      unfold hex_to_bytes
      rw [if_neg (by omega), hnone]
    simp only [decode, hb]

/-- Witness for `c9_normalisation`: each conjunct instantiated at a concrete
input — `" 0x05 "` and `"05"` normalise identically, `" "` normalises to the
empty string, `"0x0"` has an odd count, and `"GG"` has a non-hex character. -/
theorem c9_normalisation_witness :
    (cleanHex (" 0x05 ".data) = cleanHex ("05".data) ∧
      decode (" 0x05 ".data) = decode ("05".data)) ∧
    (cleanHex (" ".data) = [] ∧
      decode (" ".data) = .error (.InvalidLength "Empty data")) ∧
    ((cleanHex ("0x0".data)).length % 2 = 1 ∧
      decode ("0x0".data) = .error (.InvalidHex
        ("Odd number of hex characters: " ++
          toString (cleanHex ("0x0".data)).length))) ∧
    ('G' ∈ cleanHex ("GG".data) ∧ hexVal 'G' = none ∧
      (cleanHex ("GG".data)).length % 2 = 0 ∧
      decode ("GG".data) = .error (.InvalidHex (String.mk (cleanHex ("GG".data))))) :=
  ⟨⟨by decide, c9_normalisation.1 (" 0x05 ".data) ("05".data) (by decide)⟩,
    ⟨by decide, c9_normalisation.2.1 (" ".data) (by decide)⟩,
    ⟨by decide, c9_normalisation.2.2.1 ("0x0".data) (by decide)⟩,
    ⟨by decide, by decide, by decide,
      c9_normalisation.2.2.2 ("GG".data) 'G' (by decide) (by decide)
        (by decide)⟩⟩
